import Mathlib

/-!
Verification of `pbalign/alignservice/align.py` (class `AlignService`).

The file is a template-method orchestration layer: `__init__` binds the
file set, resolves algorithm options, patches defaults and finalizes the
temp-file manager; `run()` preprocesses input, allocates a temp output
path, executes the aligner subprocess and post-processes its output.

We embed the class shallowly:
  - Python records (`options`, `fileNames`) become Lean structures;
  - collaborators that live outside this file (`SetInOutFiles`,
    `importDefaultOptions`, `getFileFormat`, the backend hooks
    `_preProcess` / `_toCmd` / `_postProcess`, and `_execute`) are
    parameters of the orchestration functions;
  - Python exceptions become an `Exc` value (kind plus message) carried
    in `Except`; `except RuntimeError` catches a kind for which
    `ExcKind.isRuntimeError` holds (in Python, `NotImplementedError` is
    a subclass of `RuntimeError`);
  - each call made by the orchestration code is recorded as an `Event`
    in a trace, so ordering and call-count claims are statements about
    that trace;
  - Python object identity for `copy(options)` is modelled with a small
    heap of `RunOptions` records addressed by allocation index.
-/

/-- Kind of a Python exception, as far as `align.py` distinguishes them:
`RuntimeError`, `NotImplementedError` (a subclass of `RuntimeError` in
Python), or any other class, identified by name. -/
inductive ExcKind where
  | runtimeError
  | notImplementedError
  | other (name : String)
deriving DecidableEq, Repr

/-- Whether `except RuntimeError` catches an exception of this kind.
In Python `NotImplementedError` derives from `RuntimeError`, so it is
caught too. -/
def ExcKind.isRuntimeError : ExcKind → Bool
  | .runtimeError => true
  | .notImplementedError => true
  | .other _ => false

/-- A raised Python exception: its class kind and the message that
`str(e)` would return. -/
structure Exc where
  kind : ExcKind
  msg : String
deriving DecidableEq, Repr

deriving instance DecidableEq for Except

/-- The options record parsed from the command line and config file,
restricted to the fields `align.py` reads (`options.inputFileName`,
`referencePath`, `outputFileName`, `regionTable`, `pulseFile`, `tmpDir`,
`algorithmOptions`, `noSplitSubreads`). `algorithmOptions = none` models
Python `None`, `some ""` the empty string. -/
structure RunOptions where
  inputFileName : String
  referencePath : Option String
  outputFileName : String
  regionTable : Option String
  pulseFile : Option String
  tmpDir : String
  algorithmOptions : Option String
  noSplitSubreads : Bool
deriving DecidableEq, Repr, Inhabited

/-- The `PBAlignFiles` collaborator, restricted to the attributes
`align.py` reads or writes. `queryFileName` and `alignerSamOut` start
unassigned (`none`) and are assigned during `run()`. -/
structure FileNames where
  inputFileName : String
  targetFileName : Option String
  outputFileName : String
  regionTable : Option String
  queryFileName : Option String
  alignerSamOut : Option String
  isWithinRepository : Bool
deriving DecidableEq, Repr

/-- Modelled from the spec: the external `TempFileManager` collaborator
(`pbalign/utils/tempfileutil.py`, not part of the analysed source)
exposes a constructor rooted at a directory, `SetRootDir(path)` and
`RegisterNewTmpFile(suffix) -> path`. We record the root directory and
the list of registered temp paths. -/
structure TempFileManager where
  rootDir : String
  registered : List String
deriving DecidableEq, Repr

/-- Modelled from the spec: `TempFileManager(rootDir)` constructs a
fresh manager rooted at `rootDir` with no registered files. -/
def TempFileManager.new (rootDir : String) : TempFileManager :=
  ⟨rootDir, []⟩

/-- Modelled from the spec: `SetRootDir(path)` rescopes the manager to a
new root directory. -/
def TempFileManager.SetRootDir (m : TempFileManager) (path : String) :
    TempFileManager :=
  { m with rootDir := path }

/-- Modelled from the spec: `RegisterNewTmpFile(suffix)` allocates a
fresh path under the root directory ending in the requested suffix,
records it, and returns it together with the updated manager. -/
def TempFileManager.RegisterNewTmpFile (m : TempFileManager)
    (sfx : String) : String × TempFileManager :=
  let path := m.rootDir ++ "/tmpfile_" ++ toString m.registered.length ++ sfx
  (path, { m with registered := m.registered ++ [path] })

/-- File formats as classified by the external `getFileFormat` utility
(`FILE_FORMATS` in `pbalign/utils/fileutil.py`); `run()` only tests for
`BAM` and `XML`. -/
inductive FileFormat where
  | FASTA
  | SAM
  | BAM
  | XML
  | unknown
deriving DecidableEq, Repr

/-- One observable call made by the orchestration code of `align.py`,
recorded in order of occurrence. -/
inductive Event where
  | logInfo (msg : String)
  | setInOutFiles
  | resolveAlgOptions
  | importDefaults
  | newTempFileManager (rootDir : String)
  | setRootDir (rootDir : String)
  | preProcessCall
  | getFileFormatCall (path : String)
  | registerNewTmpFile (sfx : String)
  | executeCall
  | postProcessCall
deriving DecidableEq, Repr

/-- The state an `AlignService` instance holds after construction:
`self._options`, `self._fileNames`, `self._tempFileManager`. -/
structure ServiceState where
  options : RunOptions
  fileNames : FileNames
  tempFileManager : TempFileManager
deriving DecidableEq, Repr

/-- The behaviour of the concrete backend and external collaborators
that one `run()` invocation interacts with: the subclass attributes
`name` and `progName`, the hooks `_preProcess` and `_postProcess`, the
format classifier `getFileFormat`, and the `_execute` collaborator whose
single invocation either returns `(output, errCode, errMsg)` or raises. -/
structure Backend where
  name : String
  progName : String
  preProcess : String → Option String → Option String → Bool →
      TempFileManager → Bool → Except Exc String
  getFileFormat : String → FileFormat
  execute : Except Exc (String × Int × String)
  postProcess : Except Exc Unit

/-- Result of one `run()` invocation: the trace of calls made, the
returned triple or the raised exception, and the instance state after
the call. -/
structure RunOutcome where
  events : List Event
  result : Except Exc (String × Int × String)
  state : ServiceState
deriving Repr

/-- Shallow embedding of `AlignService.run` (`align.py` lines 175-203).
Step by step: log an info record; call `_preProcess` and store its
result in `fileNames.queryFileName` (a raised exception propagates, the
remaining steps are skipped); classify `fileNames.outputFileName` and
pick suffix `.bam` for BAM or XML, `.sam` otherwise; register a temp
file of that suffix and store it in `fileNames.alignerSamOut`; call
`_execute` inside `try`, where `except RuntimeError as e` re-raises
`RuntimeError(str(e))` and any other exception propagates unchanged;
call `_postProcess`; return the triple from `_execute`. -/
def AlignService.run (b : Backend) (st : ServiceState) : RunOutcome :=
  let logMsg := b.name ++ ": Align reads to references using " ++
      b.progName ++ "."
  let ev1 : List Event := [.logInfo logMsg]
  match b.preProcess st.fileNames.inputFileName st.fileNames.targetFileName
      st.fileNames.regionTable st.options.noSplitSubreads
      st.tempFileManager st.fileNames.isWithinRepository with
  | .error e => ⟨ev1 ++ [.preProcessCall], .error e, st⟩
  | .ok q =>
    let fn1 := { st.fileNames with queryFileName := some q }
    let outFormat := b.getFileFormat fn1.outputFileName
    let sfx := if outFormat = FileFormat.BAM ∨ outFormat = FileFormat.XML
        then ".bam" else ".sam"
    let reg := st.tempFileManager.RegisterNewTmpFile sfx
    let fn2 := { fn1 with alignerSamOut := some reg.1 }
    let st2 : ServiceState := ⟨st.options, fn2, reg.2⟩
    let ev2 := ev1 ++ [.preProcessCall, .getFileFormatCall fn1.outputFileName,
        .registerNewTmpFile sfx]
    match b.execute with
    | .error e =>
      let raised := if e.kind.isRuntimeError
          then Exc.mk .runtimeError e.msg else e
      ⟨ev2 ++ [.executeCall], .error raised, st2⟩
    | .ok triple =>
      let ev3 := ev2 ++ [.executeCall, .postProcessCall]
      match b.postProcess with
      | .error e => ⟨ev3, .error e, st2⟩
      | .ok _ => ⟨ev3, .ok triple, st2⟩

/-- The behaviour of the collaborators `__init__` interacts with:
`SetInOutFiles` (mutates the file set in place, modelled as returning
the updated file set), `_resolveAlgorithmOptions` (virtual, may raise),
and `importDefaultOptions` (returns a pair whose first component is the
patched options, mirroring `importDefaultOptions(options)[0]`). -/
structure InitCollabs where
  setInOutFiles : FileNames → String → Option String → String →
      Option String → Option String → FileNames
  resolveAlgorithmOptions : RunOptions → FileNames → Except Exc RunOptions
  importDefaultOptions : RunOptions → RunOptions × Bool

/-- Shallow embedding of `AlignService.__init__` (`align.py` lines
87-125). Strictly in order: bind the file set via
`SetInOutFiles(inputFileName, referencePath, outputFileName,
regionTable, pulseFile)`; resolve algorithm options (a raised exception
propagates); patch defaults via `importDefaultOptions`; finalize the
temp-file manager, constructing one rooted at `options.tmpDir` when none
was supplied and otherwise adopting the supplied one and calling
`SetRootDir(options.tmpDir)` on it. Returns the trace of calls and the
constructed state (or the propagated exception). -/
def AlignService.init (c : InitCollabs) (options : RunOptions)
    (fileNames : FileNames) (tempFileManager : Option TempFileManager) :
    List Event × Except Exc ServiceState :=
  let fn1 := c.setInOutFiles fileNames options.inputFileName
      options.referencePath options.outputFileName options.regionTable
      options.pulseFile
  let ev1 : List Event := [.setInOutFiles]
  match c.resolveAlgorithmOptions options fn1 with
  | .error e => (ev1 ++ [.resolveAlgOptions], .error e)
  | .ok resolved =>
    let final := (c.importDefaultOptions resolved).1
    let ev2 := ev1 ++ [.resolveAlgOptions, .importDefaults]
    match tempFileManager with
    | none =>
      (ev2 ++ [.newTempFileManager final.tmpDir],
       .ok ⟨final, fn1, TempFileManager.new final.tmpDir⟩)
    | some m =>
      (ev2 ++ [.setRootDir final.tmpDir],
       .ok ⟨final, fn1, m.SetRootDir final.tmpDir⟩)

/-- A heap of Python `options` objects, addressed by allocation index;
used to express the object-identity content of `copy(options)`. -/
structure Heap where
  objects : List RunOptions
deriving DecidableEq, Repr

/-- Dereference an options object; out-of-range references yield the
default record (they never arise in the theorems below). -/
def Heap.get (h : Heap) (r : Nat) : RunOptions :=
  h.objects.getD r default

/-- Allocate a fresh object holding `o`; its reference is distinct from
every existing one. -/
def Heap.alloc (h : Heap) (o : RunOptions) : Heap × Nat :=
  (⟨h.objects ++ [o]⟩, h.objects.length)

/-- Python `copy.copy(options)`: allocate a new object with the same
content as the one referenced. -/
def pyCopy (h : Heap) (r : Nat) : Heap × Nat :=
  h.alloc (h.get r)

/-- Shallow embedding of the base `AlignService._resolveAlgorithmOptions`
(`align.py` lines 71-85): when `options.algorithmOptions` is `None` or
the empty string, return `copy(options)`; otherwise raise
`NotImplementedError`. The heap makes the copy's fresh identity
observable. -/
def resolveAlgorithmOptionsBase (h : Heap) (r : Nat) :
    Except Exc (Heap × Nat) :=
  let opts := h.get r
  if opts.algorithmOptions = none ∨ opts.algorithmOptions = some "" then
    .ok (pyCopy h r)
  else
    .error ⟨.notImplementedError,
      "_resolveAlgorithmOptions() method for AlignService must be " ++
      "overridden if --algorithmOptions is specified."⟩

/-- Shallow embedding of the base `scoreSign` property (`align.py` lines
61-69): its body is a single raise statement, so it raises
`NotImplementedError` and leaves the instance state untouched. -/
def scoreSignBase (st : ServiceState) : Except Exc Int × ServiceState :=
  (.error ⟨.notImplementedError,
    "Virtual property scoreSign() for AlignService must be " ++
    "overwritten."⟩, st)

/-- Shallow embedding of the base `_toCmd` (`align.py` lines 134-149):
a single raise statement; arguments are ignored and the instance state
is untouched. -/
def toCmdBase (options : RunOptions) (fileNames : FileNames)
    (tempFileManager : TempFileManager) (st : ServiceState) :
    Except Exc String × ServiceState :=
  (.error ⟨.notImplementedError,
    "_toCmd() method for AlignService must be overridden"⟩, st)

/-- Shallow embedding of the base `_preProcess` (`align.py` lines
151-168): a single raise statement; arguments are ignored and the
instance state is untouched. -/
def preProcessBase (inputFileName : String) (referenceFile : Option String)
    (regionTable : Option String) (noSplitSubreads : Bool)
    (tempFileManager : TempFileManager) (isWithinRepository : Bool)
    (st : ServiceState) : Except Exc String × ServiceState :=
  (.error ⟨.notImplementedError,
    "_preProcess() method for AlignService must be overridden"⟩, st)

/-- Shallow embedding of the base `_postProcess` (`align.py` lines
170-173): a single raise statement; the instance state is untouched. -/
def postProcessBase (st : ServiceState) : Except Exc Unit × ServiceState :=
  (.error ⟨.notImplementedError,
    "_postProcess() method for AlignService must be overridden"⟩, st)

/-- Shallow embedding of the `cmd` property (`align.py` lines 127-132):
each access applies the backend's `_toCmd` to the instance's current
`options`, `fileNames` and `tempFileManager`; nothing is cached. -/
def AlignService.cmd
    (toCmd : RunOptions → FileNames → TempFileManager → Except Exc String)
    (st : ServiceState) : Except Exc String :=
  toCmd st.options st.fileNames st.tempFileManager

/-- Concrete options for witnesses: the spec's end-to-end scenario A. -/
def sampleOptions : RunOptions :=
  { inputFileName := "a.fofn"
    referencePath := some "ref.fasta"
    outputFileName := "out.sam"
    regionTable := none
    pulseFile := none
    tmpDir := "/tmp"
    algorithmOptions := none
    noSplitSubreads := false }

/-- Concrete file set for witnesses. -/
def sampleFileNames : FileNames :=
  { inputFileName := "a.fofn"
    targetFileName := some "ref.fasta"
    outputFileName := "out.sam"
    regionTable := none
    queryFileName := none
    alignerSamOut := none
    isWithinRepository := false }

/-- Concrete service state for witnesses. -/
def sampleState : ServiceState :=
  ⟨sampleOptions, sampleFileNames, TempFileManager.new "/tmp"⟩

/-- Finite-table format classifier used by the concrete backends. -/
def sampleGetFileFormat (path : String) : FileFormat :=
  if path = "out.bam" then FileFormat.BAM
  else if path = "out.xml" then FileFormat.XML
  else if path = "out.sam" then FileFormat.SAM
  else FileFormat.unknown

/-- Backend whose execution succeeds with a non-zero exit code. -/
def okBackend : Backend :=
  { name := "BlasrService"
    progName := "blasr"
    preProcess := fun _ _ _ _ _ _ => .ok "query.fasta"
    getFileFormat := sampleGetFileFormat
    execute := .ok ("stdout", 7, "warn")
    postProcess := .ok () }

/-- Backend whose `_execute` raises `RuntimeError("aligner crashed")`,
the spec's end-to-end scenario C. -/
def runtimeFailBackend : Backend :=
  { okBackend with execute := .error ⟨.runtimeError, "aligner crashed"⟩ }

/-- Backend whose `_execute` raises a non-`RuntimeError` exception. -/
def valueErrorBackend : Backend :=
  { okBackend with execute := .error ⟨.other "ValueError", "disk gone"⟩ }

/-- Backend whose `_preProcess` raises. -/
def preFailBackend : Backend :=
  { okBackend with
    preProcess := fun _ _ _ _ _ _ => .error ⟨.other "IOError", "bad input"⟩ }

/-- Concrete construction collaborators for witnesses. -/
def sampleInitCollabs : InitCollabs :=
  { setInOutFiles := fun f i rp o rt _ =>
      { f with inputFileName := i, targetFileName := rp,
               outputFileName := o, regionTable := rt }
    resolveAlgorithmOptions := fun o _ => .ok o
    importDefaultOptions := fun o => (o, true) }

/-- Concrete heap holding two options objects: one with unset
`algorithmOptions`, one with a non-empty string. -/
def sampleHeap : Heap :=
  ⟨[sampleOptions, { sampleOptions with algorithmOptions := some "-x 5" }]⟩

/-- C6: when `algorithmOptions` is unset (`None`) or empty, the base
`_resolveAlgorithmOptions` returns `copy(options)`: a reference distinct
from the input whose content equals the input's, and no existing object
(in particular the input) is mutated. -/
theorem resolveAlgorithmOptionsBase_copies (h : Heap) (r : Nat)
    (hr : r < h.objects.length)
    (halg : (h.get r).algorithmOptions = none ∨
            (h.get r).algorithmOptions = some "") :
    resolveAlgorithmOptionsBase h r =
      .ok (⟨h.objects ++ [h.get r]⟩, h.objects.length) ∧
    h.objects.length ≠ r ∧
    Heap.get ⟨h.objects ++ [h.get r]⟩ h.objects.length = h.get r ∧
    ∀ i, i < h.objects.length →
      Heap.get ⟨h.objects ++ [h.get r]⟩ i = h.get i := by
  refine ⟨?_, Nat.ne_of_gt hr, ?_, ?_⟩
  · unfold resolveAlgorithmOptionsBase pyCopy Heap.alloc
    rcases halg with h1 | h1 <;> simp [h1]
  · simp [Heap.get, List.getD_eq_getElem?_getD, List.getElem?_concat_length]
  · intro i hi
    simp [Heap.get, List.getD_eq_getElem?_getD, List.getElem?_append_left hi]

/-- Witness for C6 at a concrete heap and reference. -/
theorem resolveAlgorithmOptionsBase_copies_witness :
    resolveAlgorithmOptionsBase sampleHeap 0 =
      .ok (⟨sampleHeap.objects ++ [sampleHeap.get 0]⟩,
           sampleHeap.objects.length) ∧
    sampleHeap.objects.length ≠ 0 ∧
    Heap.get ⟨sampleHeap.objects ++ [sampleHeap.get 0]⟩
        sampleHeap.objects.length = sampleHeap.get 0 ∧
    ∀ i, i < sampleHeap.objects.length →
      Heap.get ⟨sampleHeap.objects ++ [sampleHeap.get 0]⟩ i =
        sampleHeap.get i :=
  resolveAlgorithmOptionsBase_copies sampleHeap 0 (by decide)
    (Or.inl (by decide))

/-- C7: when `algorithmOptions` is a non-empty string, the base
`_resolveAlgorithmOptions` raises `NotImplementedError` with the
source's message instead of returning options. -/
theorem resolveAlgorithmOptionsBase_raises (h : Heap) (r : Nat) (s : String)
    (halg : (h.get r).algorithmOptions = some s) (hs : s ≠ "") :
    resolveAlgorithmOptionsBase h r =
      .error ⟨.notImplementedError,
        "_resolveAlgorithmOptions() method for AlignService must be " ++
        "overridden if --algorithmOptions is specified."⟩ := by
  unfold resolveAlgorithmOptionsBase
  simp [halg, hs]

/-- Witness for C7 at a concrete heap and reference. -/
theorem resolveAlgorithmOptionsBase_raises_witness :
    resolveAlgorithmOptionsBase sampleHeap 1 =
      .error ⟨.notImplementedError,
        "_resolveAlgorithmOptions() method for AlignService must be " ++
        "overridden if --algorithmOptions is specified."⟩ :=
  resolveAlgorithmOptionsBase_raises sampleHeap 1 "-x 5" (by decide)
    (by decide)

/-- C8: each base virtual member (`scoreSign`, `_toCmd`, `_preProcess`,
`_postProcess`) raises `NotImplementedError` with the source's message
and performs no side effect: the instance state it returns is exactly
the one it was given. -/
theorem base_virtual_members_raise (st : ServiceState) (o : RunOptions)
    (f : FileNames) (m : TempFileManager) (i : String)
    (rf rt : Option String) (ns w : Bool) :
    scoreSignBase st =
      (.error ⟨.notImplementedError,
        "Virtual property scoreSign() for AlignService must be overwritten."⟩,
       st) ∧
    toCmdBase o f m st =
      (.error ⟨.notImplementedError,
        "_toCmd() method for AlignService must be overridden"⟩, st) ∧
    preProcessBase i rf rt ns m w st =
      (.error ⟨.notImplementedError,
        "_preProcess() method for AlignService must be overridden"⟩, st) ∧
    postProcessBase st =
      (.error ⟨.notImplementedError,
        "_postProcess() method for AlignService must be overridden"⟩, st) :=
  ⟨rfl, rfl, rfl, rfl⟩

/-- C9: each access of `cmd` is exactly `_toCmd` applied to the
instance's current `options`, `fileNames` and `tempFileManager`
(recomputed, not cached), so when a mutation makes `_toCmd` differ on
the new state, the computed command differs too. -/
theorem cmd_recomputes_from_current_state
    (tc : RunOptions → FileNames → TempFileManager → Except Exc String)
    (st st' : ServiceState)
    (hdiff : tc st'.options st'.fileNames st'.tempFileManager ≠
             tc st.options st.fileNames st.tempFileManager) :
    AlignService.cmd tc st = tc st.options st.fileNames st.tempFileManager ∧
    AlignService.cmd tc st' =
      tc st'.options st'.fileNames st'.tempFileManager ∧
    AlignService.cmd tc st' ≠ AlignService.cmd tc st :=
  ⟨rfl, rfl, hdiff⟩

/-- Witness for C9: a concrete `_toCmd` reading the output file name,
and a state mutation that changes the computed command. -/
theorem cmd_recomputes_from_current_state_witness :
    AlignService.cmd (fun o _ _ => .ok o.outputFileName) sampleState =
      .ok sampleState.options.outputFileName ∧
    AlignService.cmd (fun o _ _ => .ok o.outputFileName)
        ⟨{ sampleOptions with outputFileName := "out.bam" },
         sampleFileNames, TempFileManager.new "/tmp"⟩ =
      .ok "out.bam" ∧
    AlignService.cmd (fun o _ _ => .ok o.outputFileName)
        ⟨{ sampleOptions with outputFileName := "out.bam" },
         sampleFileNames, TempFileManager.new "/tmp"⟩ ≠
      AlignService.cmd (fun o _ _ => .ok o.outputFileName) sampleState :=
  cmd_recomputes_from_current_state (fun o _ _ => .ok o.outputFileName)
    sampleState
    ⟨{ sampleOptions with outputFileName := "out.bam" },
     sampleFileNames, TempFileManager.new "/tmp"⟩
    (by decide)

/-- C1 (amended): when `_execute` raises during `run()`, a failure whose
kind `except RuntimeError` catches is re-raised as a generic
`RuntimeError` with the original message, while a failure of any other
kind propagates out of `run()` unchanged, not re-wrapped. -/
theorem run_execute_runtime_failure_rewrapped (b : Backend)
    (st : ServiceState) (q : String) (e : Exc)
    (hpre : b.preProcess st.fileNames.inputFileName
        st.fileNames.targetFileName st.fileNames.regionTable
        st.options.noSplitSubreads st.tempFileManager
        st.fileNames.isWithinRepository = .ok q)
    (hexec : b.execute = .error e) :
    (AlignService.run b st).result =
      .error (if e.kind.isRuntimeError then Exc.mk .runtimeError e.msg
              else e) := by
  unfold AlignService.run
  rw [hpre, hexec]

/-- Witness for C1's amended theorem: a backend whose `_execute` raises
`RuntimeError("aligner crashed")`; `run()` raises a `RuntimeError`
carrying the same message. -/
theorem run_execute_runtime_failure_rewrapped_witness :
    (AlignService.run runtimeFailBackend sampleState).result =
      .error (Exc.mk .runtimeError "aligner crashed") := by
  have h := run_execute_runtime_failure_rewrapped runtimeFailBackend
    sampleState "query.fasta" ⟨.runtimeError, "aligner crashed"⟩ rfl rfl
  simpa using h

/-- Counterexample to C1 as stated: a backend whose `_execute` raises a
`ValueError` escapes `run()` with its kind unchanged — it is not
re-wrapped into the normalized runtime-failure kind, because `run()`
only catches `RuntimeError`. -/
theorem run_nonruntime_failure_escapes_unwrapped :
    (AlignService.run valueErrorBackend sampleState).result =
      .error (Exc.mk (.other "ValueError") "disk gone") ∧
    ExcKind.other "ValueError" ≠ ExcKind.runtimeError :=
  ⟨rfl, by decide⟩

/-- C2: when `_execute` raises, `run()` raises a failure carrying the
identical message text, and `_postProcess` is never invoked during that
call. -/
theorem run_execute_failure_message_preserved_no_postprocess
    (b : Backend) (st : ServiceState) (q : String) (e : Exc)
    (hpre : b.preProcess st.fileNames.inputFileName
        st.fileNames.targetFileName st.fileNames.regionTable
        st.options.noSplitSubreads st.tempFileManager
        st.fileNames.isWithinRepository = .ok q)
    (hexec : b.execute = .error e) :
    (∃ e', (AlignService.run b st).result = .error e' ∧ e'.msg = e.msg) ∧
    Event.postProcessCall ∉ (AlignService.run b st).events := by
  unfold AlignService.run
  rw [hpre, hexec]
  constructor
  · exact ⟨_, rfl, by split <;> rfl⟩
  · simp

/-- Witness for C2: `_execute` raises `RuntimeError("aligner crashed")`;
`run()`'s failure carries the same message and no post-processing call
appears in the trace. -/
theorem run_execute_failure_message_preserved_no_postprocess_witness :
    (∃ e', (AlignService.run runtimeFailBackend sampleState).result =
        .error e' ∧ e'.msg = "aligner crashed") ∧
    Event.postProcessCall ∉
      (AlignService.run runtimeFailBackend sampleState).events :=
  run_execute_failure_message_preserved_no_postprocess runtimeFailBackend
    sampleState "query.fasta" ⟨.runtimeError, "aligner crashed"⟩ rfl rfl

/-- C10: when `_preProcess` raises, the failure propagates out of
`run()` unchanged, the instance state is untouched (in particular
`queryFileName` and `alignerSamOut` stay unassigned and no temp file is
registered), and neither `_execute` nor `_postProcess` is invoked. -/
theorem run_preprocess_failure_propagates (b : Backend)
    (st : ServiceState) (e : Exc)
    (hpre : b.preProcess st.fileNames.inputFileName
        st.fileNames.targetFileName st.fileNames.regionTable
        st.options.noSplitSubreads st.tempFileManager
        st.fileNames.isWithinRepository = .error e) :
    (AlignService.run b st).result = .error e ∧
    (AlignService.run b st).state = st ∧
    (AlignService.run b st).state.fileNames.queryFileName =
      st.fileNames.queryFileName ∧
    (AlignService.run b st).state.fileNames.alignerSamOut =
      st.fileNames.alignerSamOut ∧
    (AlignService.run b st).state.tempFileManager.registered =
      st.tempFileManager.registered ∧
    Event.executeCall ∉ (AlignService.run b st).events ∧
    Event.postProcessCall ∉ (AlignService.run b st).events ∧
    ∀ s, Event.registerNewTmpFile s ∉ (AlignService.run b st).events := by
  unfold AlignService.run
  rw [hpre]
  refine ⟨rfl, rfl, rfl, rfl, rfl, by simp, by simp, fun s => by simp⟩

/-- Witness for C10: a backend whose `_preProcess` raises
`IOError("bad input")`. -/
theorem run_preprocess_failure_propagates_witness :
    (AlignService.run preFailBackend sampleState).result =
      .error ⟨.other "IOError", "bad input"⟩ ∧
    (AlignService.run preFailBackend sampleState).state = sampleState ∧
    (AlignService.run preFailBackend sampleState).state.fileNames.queryFileName =
      sampleState.fileNames.queryFileName ∧
    (AlignService.run preFailBackend sampleState).state.fileNames.alignerSamOut =
      sampleState.fileNames.alignerSamOut ∧
    (AlignService.run preFailBackend sampleState).state.tempFileManager.registered =
      sampleState.tempFileManager.registered ∧
    Event.executeCall ∉ (AlignService.run preFailBackend sampleState).events ∧
    Event.postProcessCall ∉
      (AlignService.run preFailBackend sampleState).events ∧
    ∀ s, Event.registerNewTmpFile s ∉
      (AlignService.run preFailBackend sampleState).events :=
  run_preprocess_failure_propagates preFailBackend sampleState
    ⟨.other "IOError", "bad input"⟩ rfl

/-- C3: when `_execute` returns a triple without raising, `run()` called
`_preProcess` exactly once before execution (its result stored in
`fileNames.queryFileName`), calls `_postProcess` exactly once after
execution whatever `errCode` is, and — provided `_postProcess` returns
normally — returns the triple from `_execute` unmodified; a non-zero
`errCode` neither skips post-processing nor raises. -/
theorem run_success_orchestration (b : Backend) (st : ServiceState)
    (q output : String) (errCode : Int) (errMsg : String)
    (hpre : b.preProcess st.fileNames.inputFileName
        st.fileNames.targetFileName st.fileNames.regionTable
        st.options.noSplitSubreads st.tempFileManager
        st.fileNames.isWithinRepository = .ok q)
    (hexec : b.execute = .ok (output, errCode, errMsg)) :
    (AlignService.run b st).events =
      [Event.logInfo (b.name ++ ": Align reads to references using " ++
         b.progName ++ "."),
       Event.preProcessCall,
       Event.getFileFormatCall st.fileNames.outputFileName,
       Event.registerNewTmpFile
         (if b.getFileFormat st.fileNames.outputFileName = FileFormat.BAM ∨
             b.getFileFormat st.fileNames.outputFileName = FileFormat.XML
          then ".bam" else ".sam"),
       Event.executeCall,
       Event.postProcessCall] ∧
    (AlignService.run b st).events.count Event.preProcessCall = 1 ∧
    (AlignService.run b st).events.count Event.executeCall = 1 ∧
    (AlignService.run b st).events.count Event.postProcessCall = 1 ∧
    (AlignService.run b st).state.fileNames.queryFileName = some q ∧
    (b.postProcess = .ok () →
      (AlignService.run b st).result = .ok (output, errCode, errMsg)) := by
  have hev : (AlignService.run b st).events =
      [Event.logInfo (b.name ++ ": Align reads to references using " ++
         b.progName ++ "."),
       Event.preProcessCall,
       Event.getFileFormatCall st.fileNames.outputFileName,
       Event.registerNewTmpFile
         (if b.getFileFormat st.fileNames.outputFileName = FileFormat.BAM ∨
             b.getFileFormat st.fileNames.outputFileName = FileFormat.XML
          then ".bam" else ".sam"),
       Event.executeCall,
       Event.postProcessCall] := by
    unfold AlignService.run
    rw [hpre, hexec]
    rcases b.postProcess with e | u <;> rfl
  refine ⟨hev, ?_, ?_, ?_, ?_, ?_⟩
  · rw [hev]; simp [List.count_cons]
  · rw [hev]; simp [List.count_cons]
  · rw [hev]; simp [List.count_cons]
  · unfold AlignService.run
    rw [hpre, hexec]
    rcases b.postProcess with e | u <;> rfl
  · intro hpp
    unfold AlignService.run
    rw [hpre, hexec, hpp]

/-- Witness for C3: `okBackend` with exit code 7 against the sample
state; post-processing still happens and the triple comes back
unchanged. -/
theorem run_success_orchestration_witness :
    (AlignService.run okBackend sampleState).events =
      [Event.logInfo "BlasrService: Align reads to references using blasr.",
       Event.preProcessCall,
       Event.getFileFormatCall "out.sam",
       Event.registerNewTmpFile ".sam",
       Event.executeCall,
       Event.postProcessCall] ∧
    (AlignService.run okBackend sampleState).events.count
      Event.preProcessCall = 1 ∧
    (AlignService.run okBackend sampleState).events.count
      Event.executeCall = 1 ∧
    (AlignService.run okBackend sampleState).events.count
      Event.postProcessCall = 1 ∧
    (AlignService.run okBackend sampleState).state.fileNames.queryFileName =
      some "query.fasta" ∧
    (AlignService.run okBackend sampleState).result =
      .ok ("stdout", 7, "warn") := by
  have h := run_success_orchestration okBackend sampleState "query.fasta"
    "stdout" 7 "warn" rfl rfl
  exact ⟨by rw [h.1]; decide, h.2.1, h.2.2.1, h.2.2.2.1, h.2.2.2.2.1,
         h.2.2.2.2.2 rfl⟩

/-- Registered temp-file suffixes in a completed preprocessing phase:
a suffix is requested if and only if it is the one `run()` computes from
the output file's classification. -/
theorem run_registerNewTmpFile_mem (b : Backend) (st : ServiceState)
    (q : String)
    (hpre : b.preProcess st.fileNames.inputFileName
        st.fileNames.targetFileName st.fileNames.regionTable
        st.options.noSplitSubreads st.tempFileManager
        st.fileNames.isWithinRepository = .ok q) (s : String) :
    Event.registerNewTmpFile s ∈ (AlignService.run b st).events ↔
      s = (if b.getFileFormat st.fileNames.outputFileName =
              FileFormat.BAM ∨
            b.getFileFormat st.fileNames.outputFileName = FileFormat.XML
          then ".bam" else ".sam") := by
  unfold AlignService.run
  rw [hpre]
  rcases b.execute with e | t
  · simp
  · rcases b.postProcess with e' | u <;> simp

/-- C4: the temp file allocated in step 4 of `run()` is requested with
suffix `.bam` exactly when `getFileFormat` classifies the output file as
BAM or XML, and with suffix `.sam` for every other classification; no
other suffix is ever requested. -/
theorem run_tmpfile_suffix (b : Backend) (st : ServiceState) (q : String)
    (hpre : b.preProcess st.fileNames.inputFileName
        st.fileNames.targetFileName st.fileNames.regionTable
        st.options.noSplitSubreads st.tempFileManager
        st.fileNames.isWithinRepository = .ok q) :
    ((b.getFileFormat st.fileNames.outputFileName = FileFormat.BAM ∨
      b.getFileFormat st.fileNames.outputFileName = FileFormat.XML) →
      Event.registerNewTmpFile ".bam" ∈ (AlignService.run b st).events) ∧
    (¬(b.getFileFormat st.fileNames.outputFileName = FileFormat.BAM ∨
       b.getFileFormat st.fileNames.outputFileName = FileFormat.XML) →
      Event.registerNewTmpFile ".sam" ∈ (AlignService.run b st).events) ∧
    (∀ s, Event.registerNewTmpFile s ∈ (AlignService.run b st).events →
      s = (if b.getFileFormat st.fileNames.outputFileName =
              FileFormat.BAM ∨
            b.getFileFormat st.fileNames.outputFileName = FileFormat.XML
          then ".bam" else ".sam")) := by
  refine ⟨?_, ?_, ?_⟩
  · intro hfmt
    rw [run_registerNewTmpFile_mem b st q hpre ".bam", if_pos hfmt]
  · intro hfmt
    rw [run_registerNewTmpFile_mem b st q hpre ".sam", if_neg hfmt]
  · intro s hs
    exact (run_registerNewTmpFile_mem b st q hpre s).mp hs

/-- Witness for C4: the sample output file `out.sam` is classified SAM,
so the temp file is requested with suffix `.sam`. -/
theorem run_tmpfile_suffix_witness :
    Event.registerNewTmpFile ".sam" ∈
      (AlignService.run okBackend sampleState).events := by
  have h := run_tmpfile_suffix okBackend sampleState "query.fasta" rfl
  exact h.2.1 (by decide)

/-- C5: construction performs, strictly in order, the file-set binding,
algorithm-option resolution, default patching, and temp-file-manager
finalization (fresh manager rooted at the resolved `options.tmpDir` when
none is supplied, otherwise the supplied manager rescoped via
`SetRootDir`); no temp-file allocation happens during construction, so
option resolution completes before any allocation. -/
theorem init_order_and_manager (c : InitCollabs) (o : RunOptions)
    (f : FileNames) (tm : Option TempFileManager) (r : RunOptions)
    (hres : c.resolveAlgorithmOptions o
        (c.setInOutFiles f o.inputFileName o.referencePath o.outputFileName
          o.regionTable o.pulseFile) = .ok r) :
    (AlignService.init c o f tm).1 =
      [Event.setInOutFiles, Event.resolveAlgOptions, Event.importDefaults] ++
        (match tm with
         | none =>
           [Event.newTempFileManager (c.importDefaultOptions r).1.tmpDir]
         | some _ =>
           [Event.setRootDir (c.importDefaultOptions r).1.tmpDir]) ∧
    (AlignService.init c o f tm).2 =
      .ok ⟨(c.importDefaultOptions r).1,
           c.setInOutFiles f o.inputFileName o.referencePath
             o.outputFileName o.regionTable o.pulseFile,
           (match tm with
            | none =>
              TempFileManager.new (c.importDefaultOptions r).1.tmpDir
            | some m =>
              m.SetRootDir (c.importDefaultOptions r).1.tmpDir)⟩ ∧
    ∀ s, Event.registerNewTmpFile s ∉ (AlignService.init c o f tm).1 := by
  rcases tm with _ | m <;>
    (simp only [AlignService.init]
     rw [hres]
     refine ⟨rfl, rfl, fun s => by simp⟩)

/-- Witness for C5: construction with a supplied manager rooted at
`/old` adopts it and rescopes it to the resolved `tmpDir` `/tmp`, after
binding, resolution and default patching, with no temp allocation. -/
theorem init_order_and_manager_witness :
    (AlignService.init sampleInitCollabs sampleOptions sampleFileNames
        (some (TempFileManager.new "/old"))).1 =
      [Event.setInOutFiles, Event.resolveAlgOptions, Event.importDefaults,
       Event.setRootDir "/tmp"] ∧
    (AlignService.init sampleInitCollabs sampleOptions sampleFileNames
        (some (TempFileManager.new "/old"))).2 =
      .ok ⟨sampleOptions, sampleFileNames, TempFileManager.mk "/tmp" []⟩ ∧
    ∀ s, Event.registerNewTmpFile s ∉
      (AlignService.init sampleInitCollabs sampleOptions sampleFileNames
        (some (TempFileManager.new "/old"))).1 := by
  have h := init_order_and_manager sampleInitCollabs sampleOptions
    sampleFileNames (some (TempFileManager.new "/old")) sampleOptions rfl
  exact ⟨h.1, h.2.1, h.2.2⟩
